import Mathlib

/-!
Shallow embedding of the two CRUD services in this repository:
`app.py` (Flask + PostgreSQL, table `productos`) and
`apirest_python-main/app.py` (Flask + SQLite, table `personas`).

Request bodies are modelled as parsed JSON objects (association lists of
keys to JSON values), the store as an explicit table state threaded through
each handler, and each Flask handler as a pure function from its inputs and
the table to a response, the new table, and the list of SQL statements it
sent to the store.  Machine floats are modelled as exact rationals.
-/

/-- JSON values as delivered by `request.get_json()`.  Numbers keep the
Python `int` / `float` distinction; floats are exact rationals here. -/
inductive JVal where
  | null : JVal
  | bool (b : Bool) : JVal
  | int (n : Int) : JVal
  | float (q : Rat) : JVal
  | str (s : String) : JVal
deriving DecidableEq

/-- Python truthiness (`bool(x)`) of a JSON value: `None`, `False`, `0`,
`0.0` and `""` are falsy, everything else is truthy. -/
def pyTruthy : JVal → Bool
  | .null => false
  | .bool b => b
  | .int n => n != 0
  | .float q => q != 0
  | .str s => s != ""

/-- Numeric value of a digit character. -/
def digitVal (c : Char) : Nat := c.toNat - 48

/-- Natural number denoted by a list of digit characters. -/
def digitsToNat (l : List Char) : Nat := l.foldl (fun a c => a * 10 + digitVal c) 0

/-- Python `float(s)` on a decimal string literal: optional sign, integer
digits, optional fraction.  `none` models the `ValueError` raised on a
non-numeric string such as `"abc"`.  Exponent notation and specials are out
of scope for this development. -/
def parseFloat? (s : String) : Option Rat :=
  let signed : Bool × List Char :=
    match s.toList with
    | '-' :: rest => (true, rest)
    | '+' :: rest => (false, rest)
    | cs => (false, cs)
  let ip := signed.2.takeWhile Char.isDigit
  let rest := signed.2.dropWhile Char.isDigit
  let mag? : Option Rat :=
    match rest with
    | [] => if ip.isEmpty then none else some (digitsToNat ip : Rat)
    | '.' :: frac =>
      if frac.all Char.isDigit && !(ip.isEmpty && frac.isEmpty) then
        some ((digitsToNat ip : Rat) + (digitsToNat frac : Rat) / ((10 : Rat) ^ frac.length))
      else none
    | _ => none
  mag?.map (fun q => if signed.1 then -q else q)

/-- Python `int(s)` on a decimal string literal: optional sign, digits only
(`int("1.5")` raises `ValueError`, modelled as `none`). -/
def parseInt? (s : String) : Option Int :=
  let signed : Bool × List Char :=
    match s.toList with
    | '-' :: rest => (true, rest)
    | '+' :: rest => (false, rest)
    | cs => (false, cs)
  if !signed.2.isEmpty && signed.2.all Char.isDigit then
    some (if signed.1 then -(digitsToNat signed.2 : Int) else (digitsToNat signed.2 : Int))
  else none

/-- Python `int(f)` on a float truncates toward zero. -/
def ratTrunc (q : Rat) : Int :=
  if q < 0 then -((-q).num / ((-q).den : Int)) else q.num / (q.den : Int)

/-- Python `float(x)` on a JSON value; `none` models the
`ValueError` / `TypeError` raised on non-coercible values. -/
def pyFloat? : JVal → Option Rat
  | .null => none
  | .bool b => some (if b then 1 else 0)
  | .int n => some (n : Rat)
  | .float q => some q
  | .str s => parseFloat? s

/-- Python `int(x)` on a JSON value; `none` models the
`ValueError` / `TypeError` raised on non-coercible values. -/
def pyInt? : JVal → Option Int
  | .null => none
  | .bool b => some (if b then 1 else 0)
  | .int n => some n
  | .float q => some (ratTrunc q)
  | .str s => parseInt? s

/-- A parsed JSON object body: association list of keys to values. -/
abbrev Data := List (String × JVal)

/-- Python `data.get(k)`: the value at `k`, or `None` when absent. -/
def dGet (d : Data) (k : String) : JVal := (d.lookup k).getD .null

/-- Python `data.get(k, dflt)`. -/
def dGetD (d : Data) (k : String) (dflt : JVal) : JVal := (d.lookup k).getD dflt

/-- One SQL statement sent to the store, by kind. -/
inductive Stmt where
  | select : Stmt
  | insert : Stmt
  | update : Stmt
  | delete : Stmt
deriving DecidableEq

namespace Productos

/-- A row of the `productos` table (`id SERIAL PRIMARY KEY`,
`nombre VARCHAR(100)`, `precio DECIMAL(10,2)`, `stock INTEGER`,
`fecha_creacion TIMESTAMP DEFAULT CURRENT_TIMESTAMP`).  `nombre` holds the
JSON value the handler passes through unvalidated; timestamps are abstract
instants. -/
structure Producto where
  id : Nat
  nombre : JVal
  precio : Rat
  stock : Int
  fecha_creacion : Nat
deriving DecidableEq

/-- The `productos` table plus the `SERIAL` sequence backing `id`. -/
structure DB where
  rows : List Producto
  nextId : Nat
deriving DecidableEq

/-- Responses of the JSON endpoints of `app.py`. -/
inductive Resp where
  | okList (ps : List Producto) : Resp
  | okProduct (p : Producto) : Resp
  | created (p : Producto) : Resp
  | okDeleted (id : Nat) (nombre : JVal) : Resp
  | badRequest (msg : String) : Resp
  | notFound (msg : String) : Resp
  | serverError (msg : String) : Resp
deriving DecidableEq

/-- HTTP status code of a response. -/
def Resp.status : Resp → Nat
  | .okList _ => 200
  | .okProduct _ => 200
  | .created _ => 201
  | .okDeleted _ _ => 200
  | .badRequest _ => 400
  | .notFound _ => 404
  | .serverError _ => 500

/-- Result of one handler invocation: the response, the table afterwards,
and the SQL statements that were sent to the store. -/
structure HResult where
  resp : Resp
  db : DB
  stmts : List Stmt
deriving DecidableEq

/-- `POST /productos` (`crear_producto`).  `now` is the store clock
supplying `CURRENT_TIMESTAMP`.  The handler first checks `nombre` and
`precio` for truthiness, then coerces `precio` with `float` and `stock`
(default `0`) with `int`, and only then sends the single `INSERT`. -/
def crear_producto (data : Data) (db : DB) (now : Nat) : HResult :=
  let nombre := dGet data "nombre"
  let precio := dGet data "precio"
  let stock := dGetD data "stock" (.int 0)
  if !pyTruthy nombre || !pyTruthy precio then
    ⟨.badRequest "Nombre y precio son requeridos", db, []⟩
  else
    match pyFloat? precio, pyInt? stock with
    | some p, some s =>
      let row : Producto := ⟨db.nextId, nombre, p, s, now⟩
      ⟨.created row, ⟨db.rows ++ [row], db.nextId + 1⟩, [.insert]⟩
    | _, _ => ⟨.badRequest "Precio debe ser numérico y Stock debe ser un entero", db, []⟩

/-- `ORDER BY id`: the comparison used to sort result rows. -/
def leById (a b : Producto) : Prop := a.id ≤ b.id

instance : DecidableRel leById := fun a b => Nat.decLe a.id b.id

instance : IsTotal Producto leById := ⟨fun a b => Nat.le_total a.id b.id⟩

instance : IsTrans Producto leById := ⟨fun _ _ _ hab hbc => Nat.le_trans hab hbc⟩

/-- `GET /productos` (`obtener_productos`): `page` / `limit` default to
1 / 10 when absent, `offset = (page - 1) * limit`, and the query is
`SELECT ... ORDER BY id LIMIT %s OFFSET %s`.  PostgreSQL rejects a negative
`LIMIT` or `OFFSET`, which the handler reports as a 500. -/
def obtener_productos (pageArg limitArg : Option Int) (db : DB) : HResult :=
  let page := pageArg.getD 1
  let limit := limitArg.getD 10
  let offset := (page - 1) * limit
  if limit < 0 ∨ offset < 0 then
    ⟨.serverError "Error interno del servidor", db, [.select]⟩
  else
    ⟨.okList (((db.rows.insertionSort leById).drop offset.toNat).take limit.toNat),
      db, [.select]⟩

/-- `GET /productos/(id)` (`obtener_producto`): one `SELECT ... WHERE id`,
404 when `fetchone` finds nothing. -/
def obtener_producto (pid : Nat) (db : DB) : HResult :=
  match db.rows.find? (fun r => r.id == pid) with
  | some r => ⟨.okProduct r, db, [.select]⟩
  | none => ⟨.notFound "Producto no encontrado", db, [.select]⟩

/-- The `SET` clause assembled by `actualizar_producto`: which of the three
updatable columns appear, and the values they are set to. -/
structure UpdFields where
  nombre : Option JVal
  precio : Option Rat
  stock : Option Int
deriving DecidableEq

/-- `update_fields` is empty: no recognised key was present in the body. -/
def UpdFields.isNone (u : UpdFields) : Bool :=
  u.nombre.isNone && u.precio.isNone && u.stock.isNone

/-- Apply the `SET` clause to one row; `id` and `fecha_creacion` never
appear in it. -/
def applyUpd (u : UpdFields) (r : Producto) : Producto :=
  { r with
    nombre := u.nombre.getD r.nombre
    precio := u.precio.getD r.precio
    stock := u.stock.getD r.stock }

/-- Validation of a present `precio` field: `float(data['precio'])`, or the
400 message on `ValueError` / `TypeError`. -/
def checkPrecio : Option JVal → Except String (Option Rat)
  | none => .ok none
  | some v =>
    match pyFloat? v with
    | some q => .ok (some q)
    | none => .error "Precio debe ser numérico"

/-- Validation of a present `stock` field: `int(data['stock'])`, or the 400
message on `ValueError` / `TypeError`. -/
def checkStock : Option JVal → Except String (Option Int)
  | none => .ok none
  | some v =>
    match pyInt? v with
    | some n => .ok (some n)
    | none => .error "Stock debe ser un entero"

/-- `PUT /productos/(id)` (`actualizar_producto`).  `data?` is `none` when
`request.get_json()` yields `None`.  Field validation runs in source order
(`nombre` unvalidated, then `precio`, then `stock`), each failure returning
before any statement is sent; the update itself is one
`UPDATE ... WHERE id = %s RETURNING ...`. -/
def actualizar_producto (pid : Nat) (data? : Option Data) (db : DB) : HResult :=
  match data? with
  | none => ⟨.badRequest "No hay datos para actualizar", db, []⟩
  | some data =>
    if data.isEmpty then ⟨.badRequest "No hay datos para actualizar", db, []⟩
    else
      match checkPrecio (data.lookup "precio") with
      | .error e => ⟨.badRequest e, db, []⟩
      | .ok uPrecio =>
        match checkStock (data.lookup "stock") with
        | .error e => ⟨.badRequest e, db, []⟩
        | .ok uStock =>
          let u : UpdFields := ⟨data.lookup "nombre", uPrecio, uStock⟩
          if u.isNone then ⟨.badRequest "No hay campos válidos para actualizar", db, []⟩
          else
            match db.rows.find? (fun r => r.id == pid) with
            | some r =>
              ⟨.okProduct (applyUpd u r),
                ⟨db.rows.map (fun x => if x.id == pid then applyUpd u x else x), db.nextId⟩,
                [.update]⟩
            | none => ⟨.notFound "Producto no encontrado", db, [.update]⟩

/-- `DELETE /productos/(id)` (`eliminar_producto`): one
`DELETE ... WHERE id = %s RETURNING id, nombre`. -/
def eliminar_producto (pid : Nat) (db : DB) : HResult :=
  match db.rows.find? (fun r => r.id == pid) with
  | some r =>
    ⟨.okDeleted r.id r.nombre,
      ⟨db.rows.filter (fun x => !(x.id == pid)), db.nextId⟩, [.delete]⟩
  | none => ⟨.notFound "Producto no encontrado", db, [.delete]⟩

/-- Outcome of running a request body under `get_db_cursor`: the returned
value or re-raised error, the table as committed, and how many of the
connections opened for the request are still open when control returns. -/
structure ConnRun (α : Type) where
  out : Except String α
  db : DB
  openConns : Nat

/-- `get_db_cursor` from `app.py`: connect (one connection opened), run the
body on the cursor, commit when `commit` is set (otherwise the uncommitted
changes are discarded when the connection closes), roll back and re-raise on
error, and close cursor and connection in `finally` on every path — so zero
connections remain open on return.  The body is an arbitrary computation on
the store that may raise. -/
def get_db_cursor {α : Type} (commit : Bool) (action : DB → Except String (α × DB))
    (db : DB) : ConnRun α :=
  match action db with
  | .ok (a, db2) => ⟨.ok a, if commit then db2 else db, 0⟩
  | .error e => ⟨.error e, db, 0⟩

end Productos

namespace Personas

/-- A row of the `personas` table of `apirest_python-main/app.py`.  The
seven payload columns hold whatever JSON values the client sent (SQLite is
dynamically typed); `fecha_registro` defaults to the insertion instant. -/
structure Persona where
  id : Nat
  nombre : JVal
  apellido : JVal
  edad : JVal
  email : JVal
  telefono : JVal
  direccion : JVal
  fecha_nacimiento : JVal
  fecha_registro : Nat
deriving DecidableEq

/-- The `personas` table plus the `AUTOINCREMENT` sequence backing `id`. -/
structure PDB where
  rows : List Persona
  nextId : Nat
deriving DecidableEq

/-- Responses of the personas endpoints. -/
inductive PResp where
  | okList (ps : List Persona) : PResp
  | okMsg (msg : String) : PResp
  | created (p : Persona) : PResp
  | badRequest (msg : String) : PResp
  | notFound (msg : String) : PResp
  | serverError (msg : String) : PResp
deriving DecidableEq

/-- HTTP status code of a personas response. -/
def PResp.status : PResp → Nat
  | .okList _ => 200
  | .okMsg _ => 200
  | .created _ => 201
  | .badRequest _ => 400
  | .notFound _ => 404
  | .serverError _ => 500

/-- Result of one personas handler invocation: the response, the table
afterwards, the SQL statements sent, and the number of database connections
opened for the request that are still open when the handler returns. -/
structure PResult where
  resp : PResp
  db : PDB
  stmts : List Stmt
  openConns : Nat
deriving DecidableEq

/-- `GET /personas` (`get_personas`): `conn = get_db_connection()`, one
`SELECT * FROM personas`, then `conn.close()` — the close sits on the
success path inside the `try`, not in a `finally`.  `err?` injects a store
error raised by statement execution: that path jumps to the `except` and
returns the 500 with the connection still open. -/
def get_personas (db : PDB) (err? : Option String) : PResult :=
  match err? with
  | some e => ⟨.serverError e, db, [.select], 1⟩
  | none => ⟨.okList db.rows, db, [.select], 0⟩

/-- The coalesce of `update_persona`: `data.get(k)` when that is not
`None`, otherwise the previously stored value.  A key present with JSON
null is indistinguishable from an absent key here. -/
def coal (data : Data) (k : String) (old : JVal) : JVal :=
  match dGet data k with
  | .null => old
  | v => v

/-- The seven constants of the `SET` clause of `update_persona`, computed
from the fetched row `persona` and the request body. -/
def applyPUpd (data : Data) (p : Persona) : Persona :=
  { p with
    nombre := coal data "nombre" p.nombre
    apellido := coal data "apellido" p.apellido
    edad := coal data "edad" p.edad
    email := coal data "email" p.email
    telefono := coal data "telefono" p.telefono
    direccion := coal data "direccion" p.direccion
    fecha_nacimiento := coal data "fecha_nacimiento" p.fecha_nacimiento }

/-- Overwrite the seven payload columns of row `x` with the constants taken
from `src`; `id` and `fecha_registro` are not in the `SET` clause. -/
def setPayload (src x : Persona) : Persona :=
  { x with
    nombre := src.nombre
    apellido := src.apellido
    edad := src.edad
    email := src.email
    telefono := src.telefono
    direccion := src.direccion
    fecha_nacimiento := src.fecha_nacimiento }

/-- `PUT /personas/(id)` (`update_persona`): after the body checks, a
`SELECT ... WHERE id = ?` existence check (404 closes the connection and
returns), then a separate `UPDATE ... WHERE id = ?` whose `SET` values
coalesce each `data.get` field with the fetched row. -/
def update_persona (pid : Nat) (data? : Option Data) (db : PDB) : PResult :=
  match data? with
  | none => ⟨.badRequest "No se proporcionaron datos para actualizar", db, [], 0⟩
  | some data =>
    if data.isEmpty then
      ⟨.badRequest "No se proporcionaron datos para actualizar", db, [], 0⟩
    else
      match db.rows.find? (fun r => r.id == pid) with
      | none => ⟨.notFound "Persona no encontrada", db, [.select], 0⟩
      | some persona =>
        ⟨.okMsg "Persona actualizada correctamente",
          ⟨db.rows.map
            (fun x => if x.id == pid then setPayload (applyPUpd data persona) x else x),
            db.nextId⟩,
          [.select, .update], 0⟩

/-- `DELETE /personas/(id)` (`delete_persona`): a `SELECT ... WHERE id = ?`
existence check (404 when absent), then a separate
`DELETE FROM personas WHERE id = ?`. -/
def delete_persona (pid : Nat) (db : PDB) : PResult :=
  match db.rows.find? (fun r => r.id == pid) with
  | none => ⟨.notFound "Persona no encontrada", db, [.select], 0⟩
  | some _ =>
    ⟨.okMsg "Persona eliminada correctamente",
      ⟨db.rows.filter (fun x => !(x.id == pid)), db.nextId⟩,
      [.select, .delete], 0⟩

end Personas

/-! Helper lemmas about `List.find?`, shared by the theorems below. -/

theorem find?_append_right {α : Type} (l : List α) (p : α → Bool) (a : α)
    (hl : l.find? p = none) (ha : p a = true) : (l ++ [a]).find? p = some a := by
  rw [List.find?_append, hl, Option.none_or, List.find?_cons_of_pos _ ha]

theorem find?_map_ite_id {α : Type} (l : List α) (p : α → Bool) (f : α → α)
    (hf : ∀ x, p x = true → p (f x) = true) :
    (l.map fun x => if p x then f x else x).find? p = (l.find? p).map f := by
  induction l with
  | nil => simp
  | cons x xs ih =>
    cases hpx : p x with
    | true =>
      simp only [List.map_cons, if_pos hpx, List.find?_cons_of_pos _ (hf x hpx),
        List.find?_cons_of_pos _ hpx, Option.map]
    | false =>
      have hpx2 : ¬p x = true := by simp [hpx]
      simp only [List.map_cons, if_neg hpx2, List.find?_cons_of_neg _ hpx2, ih]

/-! Concrete fixtures used by the witnesses and counterexamples. -/

/-- A five-row `productos` table (ids 1–5, the three seed rows plus two). -/
def db5 : Productos.DB :=
  ⟨[⟨1, .str "Laptop", 1200, 10, 1⟩,
    ⟨2, .str "Mouse", 25, 50, 2⟩,
    ⟨3, .str "Teclado", 75, 30, 3⟩,
    ⟨4, .str "Monitor", 300, 7, 4⟩,
    ⟨5, .str "Cable", 5, 99, 5⟩], 6⟩

/-- An empty `productos` table. -/
def dbEmpty : Productos.DB := ⟨[], 1⟩

/-- A one-row `personas` table (id 1). -/
def pdb1 : Personas.PDB :=
  ⟨[⟨1, .str "Ana", .str "Diaz", .int 30, .str "", .str "", .str "", .str "", 1⟩], 2⟩

/-- C10: in the productos JSON API, a create whose `precio` is present but
equal to the number 0, or whose `nombre` is present but the empty string, is
rejected with the 400 missing-required-fields error and inserts nothing —
the presence check `if not nombre or not precio` uses truthiness, not key
presence. -/
theorem c10_zero_price_or_empty_name_rejected :
    ∀ (data : Data) (db : Productos.DB) (now : Nat),
      (data.lookup "precio" = some (.int 0) ∨ data.lookup "precio" = some (.float 0)
        ∨ data.lookup "nombre" = some (.str "")) →
      Productos.crear_producto data db now
        = ⟨.badRequest "Nombre y precio son requeridos", db, []⟩ := by
  intro data db now h
  rcases h with h | h | h <;>
    simp [Productos.crear_producto, dGet, h, pyTruthy]

/-- Witness for C10 at a concrete request: `precio` present and equal to the
integer 0 alongside a perfectly valid name. -/
theorem c10_zero_price_or_empty_name_rejected_witness :
    ([(("nombre" : String), JVal.str "Laptop"), ("precio", JVal.int 0)].lookup "precio"
        = some (JVal.int 0))
    ∧ Productos.crear_producto [(("nombre" : String), JVal.str "Laptop"), ("precio", JVal.int 0)]
        db5 9
      = ⟨.badRequest "Nombre y precio son requeridos", db5, []⟩ :=
  ⟨by decide,
    c10_zero_price_or_empty_name_rejected
      [(("nombre" : String), JVal.str "Laptop"), ("precio", JVal.int 0)] db5 9
      (Or.inl (by decide))⟩

/-- C2: a create or update whose supplied `precio` does not coerce to a
number is answered with a 400 validation error, the table is left unchanged,
and no SQL statement is sent to the store. -/
theorem c2_invalid_price_rejected_before_store :
    ∀ (data : Data) (db : Productos.DB) (now pid : Nat) (v : JVal),
      data.lookup "precio" = some v → pyFloat? v = none →
      ((Productos.crear_producto data db now).resp.status = 400
        ∧ (Productos.crear_producto data db now).db = db
        ∧ (Productos.crear_producto data db now).stmts = [])
      ∧ ((Productos.actualizar_producto pid (some data) db).resp.status = 400
        ∧ (Productos.actualizar_producto pid (some data) db).db = db
        ∧ (Productos.actualizar_producto pid (some data) db).stmts = []) := by
  intro data db now pid v hl hf
  have hne : data.isEmpty = false := by
    cases data with
    | nil => simp [List.lookup] at hl
    | cons hd tl => rfl
  constructor
  · unfold Productos.crear_producto
    simp only [dGet, hl, Option.getD_some, hf]
    split
    · exact ⟨rfl, rfl, rfl⟩
    · exact ⟨rfl, rfl, rfl⟩
  · unfold Productos.actualizar_producto
    simp [hne, hl, Productos.checkPrecio, hf, Productos.Resp.status]

/-- Witness for C2: the string `"abc"` as price, on both a create and an
update against the five-row table. -/
theorem c2_invalid_price_rejected_before_store_witness :
    ([(("nombre" : String), JVal.str "Laptop"), ("precio", JVal.str "abc")].lookup "precio"
        = some (JVal.str "abc"))
    ∧ pyFloat? (JVal.str "abc") = none
    ∧ (((Productos.crear_producto
          [(("nombre" : String), JVal.str "Laptop"), ("precio", JVal.str "abc")] db5 9).resp.status
            = 400
        ∧ (Productos.crear_producto
            [(("nombre" : String), JVal.str "Laptop"), ("precio", JVal.str "abc")] db5 9).db = db5
        ∧ (Productos.crear_producto
            [(("nombre" : String), JVal.str "Laptop"), ("precio", JVal.str "abc")] db5 9).stmts = [])
      ∧ ((Productos.actualizar_producto 1
            (some [(("nombre" : String), JVal.str "Laptop"), ("precio", JVal.str "abc")])
            db5).resp.status = 400
        ∧ (Productos.actualizar_producto 1
            (some [(("nombre" : String), JVal.str "Laptop"), ("precio", JVal.str "abc")])
            db5).db = db5
        ∧ (Productos.actualizar_producto 1
            (some [(("nombre" : String), JVal.str "Laptop"), ("precio", JVal.str "abc")])
            db5).stmts = [])) :=
  ⟨by decide, by decide,
    c2_invalid_price_rejected_before_store
      [(("nombre" : String), JVal.str "Laptop"), ("precio", JVal.str "abc")] db5 9 1
      (JVal.str "abc") (by decide) (by decide)⟩

/-- C4: deleting an existing id removes exactly that row and answers with
the deleted identity (id and name, in the productos variant); deleting a
non-existent id answers not-found — never a server error — however often it
is repeated, and leaves the table unchanged, in both variants. -/
theorem c4_delete_semantics :
    ∀ (pid : Nat) (db : Productos.DB) (r : Productos.Producto) (pdb : Personas.PDB)
      (pr : Personas.Persona),
      (db.rows.find? (fun x => x.id == pid) = some r →
        (Productos.eliminar_producto pid db).resp = .okDeleted r.id r.nombre
        ∧ ∀ x, (x ∈ (Productos.eliminar_producto pid db).db.rows ↔
            x ∈ db.rows ∧ ¬x.id = pid))
      ∧ (db.rows.find? (fun x => x.id == pid) = none →
        Productos.eliminar_producto pid db
          = ⟨.notFound "Producto no encontrado", db, [.delete]⟩
        ∧ ∀ n : Nat,
            (Productos.eliminar_producto pid
              ((fun d => (Productos.eliminar_producto pid d).db)^[n] db)).resp
              = .notFound "Producto no encontrado")
      ∧ (pdb.rows.find? (fun x => x.id == pid) = some pr →
        (Personas.delete_persona pid pdb).resp = .okMsg "Persona eliminada correctamente"
        ∧ ∀ x, (x ∈ (Personas.delete_persona pid pdb).db.rows ↔
            x ∈ pdb.rows ∧ ¬x.id = pid))
      ∧ (pdb.rows.find? (fun x => x.id == pid) = none →
        Personas.delete_persona pid pdb
          = ⟨.notFound "Persona no encontrada", pdb, [.select], 0⟩) := by
  intro pid db r pdb pr
  refine ⟨fun h => ⟨?_, ?_⟩, fun h => ⟨?_, ?_⟩, fun h => ⟨?_, ?_⟩, fun h => ?_⟩
  · simp [Productos.eliminar_producto, h]
  · intro x
    simp [Productos.eliminar_producto, h, List.mem_filter]
  · simp [Productos.eliminar_producto, h]
  · intro n
    have hfix : (fun d => (Productos.eliminar_producto pid d).db) db = db := by
      simp [Productos.eliminar_producto, h]
    rw [Function.iterate_fixed hfix n]
    simp [Productos.eliminar_producto, h]
  · simp [Personas.delete_persona, h]
  · intro x
    simp [Personas.delete_persona, h, List.mem_filter]
  · simp [Personas.delete_persona, h]

/-- Witness for C4: deletion of existing id 3 and of absent id 99 in the
five-row productos table, and of existing id 1 and absent id 9 in the
personas table. -/
theorem c4_delete_semantics_witness :
    ((Productos.eliminar_producto 3 db5).resp = .okDeleted 3 (.str "Teclado"))
    ∧ (Productos.eliminar_producto 99 db5
        = ⟨.notFound "Producto no encontrado", db5, [.delete]⟩)
    ∧ ((Personas.delete_persona 1 pdb1).resp = .okMsg "Persona eliminada correctamente")
    ∧ (Personas.delete_persona 9 pdb1
        = ⟨.notFound "Persona no encontrada", pdb1, [.select], 0⟩) :=
  ⟨((c4_delete_semantics 3 db5 ⟨3, .str "Teclado", 75, 30, 3⟩ pdb1
      ⟨1, .str "Ana", .str "Diaz", .int 30, .str "", .str "", .str "", .str "", 1⟩).1
        (by decide)).1,
    ((c4_delete_semantics 99 db5 ⟨3, .str "Teclado", 75, 30, 3⟩ pdb1
      ⟨1, .str "Ana", .str "Diaz", .int 30, .str "", .str "", .str "", .str "", 1⟩).2.1
        (by decide)).1,
    ((c4_delete_semantics 1 db5 ⟨3, .str "Teclado", 75, 30, 3⟩ pdb1
      ⟨1, .str "Ana", .str "Diaz", .int 30, .str "", .str "", .str "", .str "", 1⟩).2.2.1
        (by decide)).1,
    (c4_delete_semantics 9 db5 ⟨3, .str "Teclado", 75, 30, 3⟩ pdb1
      ⟨1, .str "Ana", .str "Diaz", .int 30, .str "", .str "", .str "", .str "", 1⟩).2.2.2
        (by decide)⟩

/-- C8 counterexample: in the personas variant, `conn.close()` sits on the
success path inside the `try`, so a store error raised while executing the
list query makes the handler return 500 with the connection still open —
the claim that every variant releases the connection on every exit path
fails here. -/
theorem c8_connection_release_counterexample :
    (Personas.get_personas pdb1 (some "database is locked")).resp
      = .serverError "database is locked"
    ∧ (Personas.get_personas pdb1 (some "database is locked")).openConns = 1 :=
  ⟨rfl, rfl⟩

/-- C8 amended: in the productos variant, `get_db_cursor` closes the
connection on every exit path and rolls back (table unchanged) whenever the
body raises, for every request body; in the personas variant, the
connection is closed on the success path but a store error during statement
execution returns with it still open. -/
theorem c8_connection_release_amended :
    ∀ {α : Type} (commit : Bool) (action : Productos.DB → Except String (α × Productos.DB))
      (db : Productos.DB) (pdb : Personas.PDB) (e : String),
      (Productos.get_db_cursor commit action db).openConns = 0
      ∧ (∀ msg, (Productos.get_db_cursor commit action db).out = .error msg →
          (Productos.get_db_cursor commit action db).db = db)
      ∧ (Personas.get_personas pdb none).openConns = 0
      ∧ (Personas.get_personas pdb (some e)).openConns = 1 := by
  intro α commit action db pdb e
  refine ⟨?_, fun msg hmsg => ?_, rfl, rfl⟩
  · unfold Productos.get_db_cursor
    split <;> rfl
  · unfold Productos.get_db_cursor at hmsg ⊢
    split at hmsg
    · exact Except.noConfusion hmsg
    · rfl

/-- Witness for C8 amended: a body that raises, run under `get_db_cursor`
with commit on, over the five-row table; and the two personas list runs. -/
theorem c8_connection_release_amended_witness :
    ((Productos.get_db_cursor true
        (fun _ => (Except.error "boom" : Except String (Nat × Productos.DB))) db5).out
      = Except.error "boom")
    ∧ (Productos.get_db_cursor true
        (fun _ => (Except.error "boom" : Except String (Nat × Productos.DB))) db5).db = db5
    ∧ (Productos.get_db_cursor true
        (fun _ => (Except.error "boom" : Except String (Nat × Productos.DB))) db5).openConns = 0
    ∧ (Personas.get_personas pdb1 none).openConns = 0
    ∧ (Personas.get_personas pdb1 (some "x")).openConns = 1 :=
  have h := c8_connection_release_amended true
    (fun _ => (Except.error "boom" : Except String (Nat × Productos.DB))) db5 pdb1 "x"
  ⟨rfl, h.2.1 "boom" rfl, h.1, h.2.2.1, h.2.2.2⟩

/-- C9 counterexample: in the personas variant, update and delete on an
existing id send two statements to the store — an existence-check `SELECT`
followed by the separate mutation — refuting the claim that every operation
in every variant executes as a single atomic statement. -/
theorem c9_single_statement_counterexample :
    (Personas.update_persona 1 (some [(("nombre" : String), JVal.str "Eva")]) pdb1).stmts
      = [Stmt.select, Stmt.update]
    ∧ (Personas.update_persona 1
        (some [(("nombre" : String), JVal.str "Eva")]) pdb1).stmts.length = 2
    ∧ (Personas.delete_persona 1 pdb1).stmts = [Stmt.select, Stmt.delete] :=
  ⟨by decide, by decide, by decide⟩

/-- C9 amended: every productos operation sends at most one statement to
the store; in the personas variant, update and delete on an existing id
perform an existence-check `SELECT` followed by a separate mutating
statement. -/
theorem c9_statement_granularity_amended :
    ∀ (data : Data) (data? : Option Data) (db : Productos.DB) (now pid : Nat)
      (pageArg limitArg : Option Int) (pdb : Personas.PDB) (r : Personas.Persona),
      (Productos.crear_producto data db now).stmts.length ≤ 1
      ∧ (Productos.obtener_productos pageArg limitArg db).stmts.length ≤ 1
      ∧ (Productos.obtener_producto pid db).stmts.length ≤ 1
      ∧ (Productos.actualizar_producto pid data? db).stmts.length ≤ 1
      ∧ (Productos.eliminar_producto pid db).stmts.length ≤ 1
      ∧ (pdb.rows.find? (fun x => x.id == pid) = some r → data.isEmpty = false →
          (Personas.update_persona pid (some data) pdb).stmts = [Stmt.select, Stmt.update])
      ∧ (pdb.rows.find? (fun x => x.id == pid) = some r →
          (Personas.delete_persona pid pdb).stmts = [Stmt.select, Stmt.delete]) := by
  intro data data? db now pid pageArg limitArg pdb r
  refine ⟨?_, ?_, ?_, ?_, ?_, fun hfind hne => ?_, fun hfind => ?_⟩
  · unfold Productos.crear_producto
    dsimp only
    repeat' split
    all_goals simp
  · unfold Productos.obtener_productos
    dsimp only
    split <;> simp
  · unfold Productos.obtener_producto
    split <;> simp
  · unfold Productos.actualizar_producto
    cases data? with
    | none => simp
    | some d =>
      dsimp only
      repeat' split
      all_goals simp
  · unfold Productos.eliminar_producto
    split <;> simp
  · simp [Personas.update_persona, hne, hfind]
  · simp [Personas.delete_persona, hfind]

/-- Witness for C9 amended at concrete inputs: a create and an update in
the productos variant, and the two-statement personas update and delete on
the existing id 1. -/
theorem c9_statement_granularity_amended_witness :
    ((Productos.crear_producto
        [(("nombre" : String), JVal.str "Laptop"), ("precio", JVal.float 10)] db5 9).stmts.length
      ≤ 1)
    ∧ ((Productos.actualizar_producto 1
        (some [(("stock" : String), JVal.int 5)]) db5).stmts.length ≤ 1)
    ∧ ((Personas.update_persona 1 (some [(("edad" : String), JVal.int 31)]) pdb1).stmts
        = [Stmt.select, Stmt.update])
    ∧ ((Personas.delete_persona 1 pdb1).stmts = [Stmt.select, Stmt.delete]) :=
  have h := c9_statement_granularity_amended [(("edad" : String), JVal.int 31)]
    (some [(("stock" : String), JVal.int 5)]) db5 9 1 none none pdb1
    ⟨1, .str "Ana", .str "Diaz", .int 30, .str "", .str "", .str "", .str "", 1⟩
  ⟨(c9_statement_granularity_amended
      [(("nombre" : String), JVal.str "Laptop"), ("precio", JVal.float 10)]
      (some [(("stock" : String), JVal.int 5)]) db5 9 1 none none pdb1
      ⟨1, .str "Ana", .str "Diaz", .int 30, .str "", .str "", .str "", .str "", 1⟩).1,
    h.2.2.2.1, h.2.2.2.2.2.1 (by decide) (by decide), h.2.2.2.2.2.2 (by decide)⟩

/-- C3: a valid create inserts a row carrying exactly the coerced supplied
fields, the generated id and the creation instant, and an immediately
following get on that id returns the same row. -/
theorem c3_create_then_get_roundtrip :
    ∀ (data : Data) (db : Productos.DB) (now : Nat) (q : Rat) (s : Int),
      (∀ r ∈ db.rows, r.id < db.nextId) →
      pyTruthy (dGet data "nombre") = true →
      pyTruthy (dGet data "precio") = true →
      pyFloat? (dGet data "precio") = some q →
      pyInt? (dGetD data "stock" (.int 0)) = some s →
      (Productos.crear_producto data db now).resp
          = .created ⟨db.nextId, dGet data "nombre", q, s, now⟩
      ∧ (Productos.obtener_producto db.nextId (Productos.crear_producto data db now).db).resp
          = .okProduct ⟨db.nextId, dGet data "nombre", q, s, now⟩ := by
  intro data db now q s hinv hn hp hq hs
  have hcreate : Productos.crear_producto data db now
      = ⟨.created ⟨db.nextId, dGet data "nombre", q, s, now⟩,
          ⟨db.rows ++ [⟨db.nextId, dGet data "nombre", q, s, now⟩], db.nextId + 1⟩,
          [.insert]⟩ := by
    unfold Productos.crear_producto
    simp [hn, hp, hq, hs]
  have hnone : db.rows.find? (fun x => x.id == db.nextId) = none := by
    rw [List.find?_eq_none]
    intro x hx
    simp only [beq_iff_eq]
    exact Nat.ne_of_lt (hinv x hx)
  refine ⟨by rw [hcreate], ?_⟩
  rw [hcreate]
  unfold Productos.obtener_producto
  rw [find?_append_right _ _ _ hnone (by simp)]

/-- Witness for C3 at the concrete scenario of the spec: create a Laptop
with price 1200 and stock 10 into the empty table, then get id 1. -/
theorem c3_create_then_get_roundtrip_witness :
    (Productos.crear_producto
        [(("nombre" : String), JVal.str "Laptop"), ("precio", JVal.float 1200),
          ("stock", JVal.int 10)] dbEmpty 7).resp
      = .created ⟨1, .str "Laptop", 1200, 10, 7⟩
    ∧ (Productos.obtener_producto 1
        (Productos.crear_producto
          [(("nombre" : String), JVal.str "Laptop"), ("precio", JVal.float 1200),
            ("stock", JVal.int 10)] dbEmpty 7).db).resp
      = .okProduct ⟨1, .str "Laptop", 1200, 10, 7⟩ :=
  c3_create_then_get_roundtrip
    [(("nombre" : String), JVal.str "Laptop"), ("precio", JVal.float 1200),
      ("stock", JVal.int 10)] dbEmpty 7 1200 10
    (by decide) (by decide) (by decide) (by decide) (by decide)

/-- C1: on a partial update, the stored row keeps its prior value in every
field absent from the body, rows with other ids are untouched, and a PUT on
a non-existent id answers 400 (validation) or not-found — never a server
error — in both variants. -/
theorem c1_partial_update_preserves_absent_fields :
    ∀ (pid : Nat) (data? : Option Data) (db : Productos.DB) (r p2 : Productos.Producto)
      (pdb : Personas.PDB) (pr q2 : Personas.Persona),
      (db.rows.find? (fun x => x.id == pid) = some r →
        ((Productos.actualizar_producto pid data? db).db.rows.find? (fun x => x.id == pid)
            = some p2 →
          p2.id = r.id ∧ p2.fecha_creacion = r.fecha_creacion
          ∧ ∀ data, data? = some data →
              (data.lookup "nombre" = none → p2.nombre = r.nombre)
              ∧ (data.lookup "precio" = none → p2.precio = r.precio)
              ∧ (data.lookup "stock" = none → p2.stock = r.stock))
        ∧ ∀ x ∈ db.rows, ¬x.id = pid →
            x ∈ (Productos.actualizar_producto pid data? db).db.rows)
      ∧ (db.rows.find? (fun x => x.id == pid) = none →
          (Productos.actualizar_producto pid data? db).resp.status = 400
          ∨ (Productos.actualizar_producto pid data? db).resp
              = .notFound "Producto no encontrado")
      ∧ (pdb.rows.find? (fun x => x.id == pid) = some pr →
        ((Personas.update_persona pid data? pdb).db.rows.find? (fun x => x.id == pid)
            = some q2 →
          q2.id = pr.id ∧ q2.fecha_registro = pr.fecha_registro
          ∧ ∀ data, data? = some data →
              (dGet data "nombre" = .null → q2.nombre = pr.nombre)
              ∧ (dGet data "apellido" = .null → q2.apellido = pr.apellido)
              ∧ (dGet data "edad" = .null → q2.edad = pr.edad)
              ∧ (dGet data "email" = .null → q2.email = pr.email)
              ∧ (dGet data "telefono" = .null → q2.telefono = pr.telefono)
              ∧ (dGet data "direccion" = .null → q2.direccion = pr.direccion)
              ∧ (dGet data "fecha_nacimiento" = .null →
                  q2.fecha_nacimiento = pr.fecha_nacimiento))
        ∧ ∀ x ∈ pdb.rows, ¬x.id = pid →
            x ∈ (Personas.update_persona pid data? pdb).db.rows)
      ∧ (pdb.rows.find? (fun x => x.id == pid) = none →
          (Personas.update_persona pid data? pdb).resp.status = 400
          ∨ (Personas.update_persona pid data? pdb).resp
              = .notFound "Persona no encontrada") := by
  intro pid data? db r p2 pdb pr q2
  refine ⟨fun hfind => ?_, fun hnone => ?_, fun hfind => ?_, fun hnone => ?_⟩
  · unfold Productos.actualizar_producto
    cases data? with
    | none =>
      dsimp only
      refine ⟨fun h2 => ?_, fun x hx _ => hx⟩
      rw [hfind] at h2
      injection h2 with h2
      subst h2
      exact ⟨rfl, rfl, fun d hd => by cases hd⟩
    | some data =>
      dsimp only
      split
      · refine ⟨fun h2 => ?_, fun x hx _ => hx⟩
        rw [hfind] at h2
        injection h2 with h2
        subst h2
        exact ⟨rfl, rfl, fun d hd => by
          injection hd with hd
          subst hd
          exact ⟨fun _ => rfl, fun _ => rfl, fun _ => rfl⟩⟩
      · split
        · refine ⟨fun h2 => ?_, fun x hx _ => hx⟩
          rw [hfind] at h2
          injection h2 with h2
          subst h2
          exact ⟨rfl, rfl, fun d hd => by
            injection hd with hd
            subst hd
            exact ⟨fun _ => rfl, fun _ => rfl, fun _ => rfl⟩⟩
        · rename_i uP hP
          split
          · refine ⟨fun h2 => ?_, fun x hx _ => hx⟩
            rw [hfind] at h2
            injection h2 with h2
            subst h2
            exact ⟨rfl, rfl, fun d hd => by
              injection hd with hd
              subst hd
              exact ⟨fun _ => rfl, fun _ => rfl, fun _ => rfl⟩⟩
          · rename_i uS hS
            split
            · refine ⟨fun h2 => ?_, fun x hx _ => hx⟩
              rw [hfind] at h2
              injection h2 with h2
              subst h2
              exact ⟨rfl, rfl, fun d hd => by
                injection hd with hd
                subst hd
                exact ⟨fun _ => rfl, fun _ => rfl, fun _ => rfl⟩⟩
            · split
              · rename_i r2 hr2
                refine ⟨fun h2 => ?_, fun x hx hxid => ?_⟩
                · rw [find?_map_ite_id _ _ _
                      (fun x hx => by simpa [Productos.applyUpd] using hx), hfind] at h2
                  injection h2 with h2
                  subst h2
                  refine ⟨rfl, rfl, fun d hd => ?_⟩
                  injection hd with hd
                  subst hd
                  refine ⟨fun hn => ?_, fun hp => ?_, fun hs => ?_⟩
                  · simp [Productos.applyUpd, hn]
                  · rw [hp] at hP
                    simp only [Productos.checkPrecio] at hP
                    injection hP with hP
                    simp [Productos.applyUpd, ← hP]
                  · rw [hs] at hS
                    simp only [Productos.checkStock] at hS
                    injection hS with hS
                    simp [Productos.applyUpd, ← hS]
                · exact List.mem_map.mpr ⟨x, hx, by simp [hxid]⟩
              · rename_i hr2
                rw [hfind] at hr2
                cases hr2
  · unfold Productos.actualizar_producto
    cases data? with
    | none => exact Or.inl rfl
    | some data =>
      dsimp only
      split
      · exact Or.inl rfl
      · split
        · exact Or.inl rfl
        · split
          · exact Or.inl rfl
          · split
            · exact Or.inl rfl
            · split
              · rename_i r2 hr2
                rw [hnone] at hr2
                cases hr2
              · exact Or.inr rfl
  · unfold Personas.update_persona
    cases data? with
    | none =>
      dsimp only
      refine ⟨fun h2 => ?_, fun x hx _ => hx⟩
      rw [hfind] at h2
      injection h2 with h2
      subst h2
      exact ⟨rfl, rfl, fun d hd => by cases hd⟩
    | some data =>
      dsimp only
      split
      · refine ⟨fun h2 => ?_, fun x hx _ => hx⟩
        rw [hfind] at h2
        injection h2 with h2
        subst h2
        refine ⟨rfl, rfl, fun d hd => ?_⟩
        injection hd with hd
        subst hd
        exact ⟨fun _ => rfl, fun _ => rfl, fun _ => rfl, fun _ => rfl,
          fun _ => rfl, fun _ => rfl, fun _ => rfl⟩
      · split
        · rename_i hr2
          rw [hfind] at hr2
          cases hr2
        · rename_i persona hper
          rw [hfind] at hper
          injection hper with hper
          subst hper
          refine ⟨fun h2 => ?_, fun x hx hxid => ?_⟩
          · rw [find?_map_ite_id _ _ _
                (fun x hx => by simpa [Personas.setPayload] using hx), hfind] at h2
            injection h2 with h2
            subst h2
            refine ⟨rfl, rfl, fun d hd => ?_⟩
            injection hd with hd
            subst hd
            refine ⟨fun h => ?_, fun h => ?_, fun h => ?_, fun h => ?_,
              fun h => ?_, fun h => ?_, fun h => ?_⟩ <;>
              simp [Personas.setPayload, Personas.applyPUpd, Personas.coal, h]
          · exact List.mem_map.mpr ⟨x, hx, by simp [hxid]⟩
  · unfold Personas.update_persona
    cases data? with
    | none => exact Or.inl rfl
    | some data =>
      dsimp only
      split
      · exact Or.inl rfl
      · split
        · exact Or.inr rfl
        · rename_i persona hper
          rw [hnone] at hper
          cases hper

/-- Witness for C1: updating only `stock` of row id 2 in the five-row table
leaves name and price untouched and stock becomes 5; updating absent id 99
gives not-found (or a 400), in both variants. -/
theorem c1_partial_update_preserves_absent_fields_witness :
    (db5.rows.find? (fun x => x.id == 2) = some ⟨2, .str "Mouse", 25, 50, 2⟩)
    ∧ ((Productos.actualizar_producto 2 (some [(("stock" : String), JVal.int 5)]) db5).db.rows.find?
        (fun x => x.id == 2) = some ⟨2, .str "Mouse", 25, 5, 2⟩)
    ∧ ((⟨2, .str "Mouse", 25, 5, 2⟩ : Productos.Producto).nombre
        = (⟨2, .str "Mouse", 25, 50, 2⟩ : Productos.Producto).nombre)
    ∧ ((⟨2, .str "Mouse", 25, 5, 2⟩ : Productos.Producto).precio
        = (⟨2, .str "Mouse", 25, 50, 2⟩ : Productos.Producto).precio)
    ∧ ((Productos.actualizar_producto 99 (some [(("stock" : String), JVal.int 5)]) db5).resp.status
          = 400
        ∨ (Productos.actualizar_producto 99 (some [(("stock" : String), JVal.int 5)]) db5).resp
          = .notFound "Producto no encontrado")
    ∧ ((Personas.update_persona 9 (some [(("nombre" : String), JVal.str "Eva")]) pdb1).resp.status
          = 400
        ∨ (Personas.update_persona 9 (some [(("nombre" : String), JVal.str "Eva")]) pdb1).resp
          = .notFound "Persona no encontrada") :=
  ⟨by decide, by decide,
    ((((c1_partial_update_preserves_absent_fields 2 (some [(("stock" : String), JVal.int 5)]) db5
        ⟨2, .str "Mouse", 25, 50, 2⟩ ⟨2, .str "Mouse", 25, 5, 2⟩ pdb1
        ⟨1, .str "Ana", .str "Diaz", .int 30, .str "", .str "", .str "", .str "", 1⟩
        ⟨1, .str "Ana", .str "Diaz", .int 30, .str "", .str "", .str "", .str "", 1⟩).1
          (by decide)).1 (by decide)).2.2 [(("stock" : String), JVal.int 5)] rfl).1 (by decide),
    ((((c1_partial_update_preserves_absent_fields 2 (some [(("stock" : String), JVal.int 5)]) db5
        ⟨2, .str "Mouse", 25, 50, 2⟩ ⟨2, .str "Mouse", 25, 5, 2⟩ pdb1
        ⟨1, .str "Ana", .str "Diaz", .int 30, .str "", .str "", .str "", .str "", 1⟩
        ⟨1, .str "Ana", .str "Diaz", .int 30, .str "", .str "", .str "", .str "", 1⟩).1
          (by decide)).1 (by decide)).2.2 [(("stock" : String), JVal.int 5)] rfl).2.1 (by decide),
    (c1_partial_update_preserves_absent_fields 99 (some [(("stock" : String), JVal.int 5)]) db5
        ⟨2, .str "Mouse", 25, 50, 2⟩ ⟨2, .str "Mouse", 25, 5, 2⟩ pdb1
        ⟨1, .str "Ana", .str "Diaz", .int 30, .str "", .str "", .str "", .str "", 1⟩
        ⟨1, .str "Ana", .str "Diaz", .int 30, .str "", .str "", .str "", .str "", 1⟩).2.1
          (by decide),
    (c1_partial_update_preserves_absent_fields 9 (some [(("nombre" : String), JVal.str "Eva")]) db5
        ⟨2, .str "Mouse", 25, 50, 2⟩ ⟨2, .str "Mouse", 25, 5, 2⟩ pdb1
        ⟨1, .str "Ana", .str "Diaz", .int 30, .str "", .str "", .str "", .str "", 1⟩
        ⟨1, .str "Ana", .str "Diaz", .int 30, .str "", .str "", .str "", .str "", 1⟩).2.2.2
          (by decide)⟩

/-- C5: create requires truthy `name` and `price`; a price or stock that
fails coercion yields a 400 validation response — never a server error —
with the table unchanged; a valid create answers 201 with the new row
carrying the generated id and the creation timestamp. -/
theorem c5_create_requires_and_validates :
    ∀ (data : Data) (db : Productos.DB) (now : Nat),
      ((data.lookup "nombre" = none ∨ data.lookup "precio" = none) →
        Productos.crear_producto data db now
          = ⟨.badRequest "Nombre y precio son requeridos", db, []⟩)
      ∧ ((pyFloat? (dGet data "precio") = none ∨ pyInt? (dGetD data "stock" (.int 0)) = none) →
        (Productos.crear_producto data db now).resp.status = 400
        ∧ (∀ m, (Productos.crear_producto data db now).resp ≠ .serverError m)
        ∧ (Productos.crear_producto data db now).db = db)
      ∧ (∀ q s, pyTruthy (dGet data "nombre") = true → pyTruthy (dGet data "precio") = true →
          pyFloat? (dGet data "precio") = some q →
          pyInt? (dGetD data "stock" (.int 0)) = some s →
          (Productos.crear_producto data db now).resp
            = .created ⟨db.nextId, dGet data "nombre", q, s, now⟩
          ∧ (Productos.crear_producto data db now).resp.status = 201) := by
  intro data db now
  refine ⟨fun h => ?_, fun h => ?_, fun q s hn hp hq hs => ?_⟩
  · rcases h with h | h <;> simp [Productos.crear_producto, dGet, h, pyTruthy]
  · unfold Productos.crear_producto
    dsimp only
    split
    · exact ⟨rfl, ⟨fun m hm => Productos.Resp.noConfusion hm, rfl⟩⟩
    · rcases h with h | h
      · rw [h]
        exact ⟨rfl, ⟨fun m hm => Productos.Resp.noConfusion hm, rfl⟩⟩
      · cases hq : pyFloat? (dGet data "precio") with
        | none =>
          exact ⟨rfl, ⟨fun m hm => Productos.Resp.noConfusion hm, rfl⟩⟩
        | some q =>
          rw [h]
          exact ⟨rfl, ⟨fun m hm => Productos.Resp.noConfusion hm, rfl⟩⟩
  · have hcreate : Productos.crear_producto data db now
        = ⟨.created ⟨db.nextId, dGet data "nombre", q, s, now⟩,
            ⟨db.rows ++ [⟨db.nextId, dGet data "nombre", q, s, now⟩], db.nextId + 1⟩,
            [.insert]⟩ := by
      unfold Productos.crear_producto
      simp [hn, hp, hq, hs]
    rw [hcreate]
    exact ⟨rfl, rfl⟩

/-- Witness for C5: a body without price (400 required-fields), a body with
the non-numeric price `"abc"` (400, not a server error, no change), and a
fully valid body (201 with id and timestamp). -/
theorem c5_create_requires_and_validates_witness :
    (Productos.crear_producto [(("nombre" : String), JVal.str "Laptop")] db5 9
        = ⟨.badRequest "Nombre y precio son requeridos", db5, []⟩)
    ∧ ((Productos.crear_producto
          [(("nombre" : String), JVal.str "Tablet"), ("precio", JVal.str "abc")] db5 9).resp.status
        = 400
      ∧ (Productos.crear_producto
          [(("nombre" : String), JVal.str "Tablet"), ("precio", JVal.str "abc")] db5 9).db = db5)
    ∧ ((Productos.crear_producto
          [(("nombre" : String), JVal.str "Tablet"), ("precio", JVal.float 300),
            ("stock", JVal.int 4)] db5 9).resp
        = .created ⟨6, .str "Tablet", 300, 4, 9⟩) :=
  ⟨(c5_create_requires_and_validates [(("nombre" : String), JVal.str "Laptop")] db5 9).1
      (Or.inr (by decide)),
    ⟨((c5_create_requires_and_validates
        [(("nombre" : String), JVal.str "Tablet"), ("precio", JVal.str "abc")] db5 9).2.1
        (Or.inl (by decide))).1,
      ((c5_create_requires_and_validates
        [(("nombre" : String), JVal.str "Tablet"), ("precio", JVal.str "abc")] db5 9).2.1
        (Or.inl (by decide))).2.2⟩,
    ((c5_create_requires_and_validates
        [(("nombre" : String), JVal.str "Tablet"), ("precio", JVal.float 300),
          ("stock", JVal.int 4)] db5 9).2.2 300 4
        (by decide) (by decide) (by decide) (by decide)).1⟩

/-- C6: `page` and `limit` default to 1 and 10 when absent; for any
non-negative `limit` and `page ≥ 1` the response is the
`(page - 1) * limit` offset slice of the rows ordered by id ascending, and
that slice is sorted by id. -/
theorem c6_list_pagination :
    ∀ (page limit : Int) (db : Productos.DB),
      Productos.obtener_productos none none db
        = Productos.obtener_productos (some 1) (some 10) db
      ∧ (1 ≤ page → 0 ≤ limit →
          (Productos.obtener_productos (some page) (some limit) db).resp
            = .okList (((db.rows.insertionSort Productos.leById).drop
                ((page - 1) * limit).toNat).take limit.toNat)
          ∧ List.Sorted Productos.leById
              (((db.rows.insertionSort Productos.leById).drop
                ((page - 1) * limit).toNat).take limit.toNat)) := by
  intro page limit db
  refine ⟨rfl, fun hp hl => ⟨?_, ?_⟩⟩
  · have hcond : ¬((limit : Int) < 0 ∨ (page - 1) * limit < 0) := by
      push_neg
      exact ⟨hl, mul_nonneg (by linarith) hl⟩
    unfold Productos.obtener_productos
    simp only [Option.getD_some]
    rw [if_neg hcond]
  · exact List.Pairwise.sublist
      ((List.take_sublist _ _).trans (List.drop_sublist _ _))
      (List.sorted_insertionSort Productos.leById db.rows)

/-- Witness for C6: `list(page = 2, limit = 2)` over the five-row table
returns exactly the 3rd and 4th rows in id order. -/
theorem c6_list_pagination_witness :
    ((1 : Int) ≤ 2) ∧ ((0 : Int) ≤ 2)
    ∧ (Productos.obtener_productos (some 2) (some 2) db5).resp
        = .okList [⟨3, .str "Teclado", 75, 30, 3⟩, ⟨4, .str "Monitor", 300, 7, 4⟩] :=
  ⟨by decide, by decide,
    (((c6_list_pagination 2 2 db5).2 (by decide) (by decide)).1).trans (by decide)⟩

/-- C7: no update operation ever changes the `id` or the creation timestamp
of any stored row, in either variant: the projection of the table onto
those two columns is invariant under the update handlers. -/
theorem c7_update_never_changes_id_or_created :
    ∀ (pid : Nat) (data? : Option Data) (db : Productos.DB) (pdb : Personas.PDB),
      (Productos.actualizar_producto pid data? db).db.rows.map
          (fun r => (r.id, r.fecha_creacion))
        = db.rows.map (fun r => (r.id, r.fecha_creacion))
      ∧ (Personas.update_persona pid data? pdb).db.rows.map
          (fun r => (r.id, r.fecha_registro))
        = pdb.rows.map (fun r => (r.id, r.fecha_registro)) := by
  intro pid data? db pdb
  constructor
  · unfold Productos.actualizar_producto
    cases data? with
    | none => rfl
    | some data =>
      dsimp only
      repeat' split
      all_goals
        first
        | rfl
        | (simp only [List.map_map]
           congr 1
           funext x
           by_cases hx : x.id == pid <;>
             simp [Function.comp, hx, Productos.applyUpd])
  · unfold Personas.update_persona
    cases data? with
    | none => rfl
    | some data =>
      dsimp only
      repeat' split
      all_goals
        first
        | rfl
        | (simp only [List.map_map]
           congr 1
           funext x
           by_cases hx : x.id == pid <;>
             simp [Function.comp, hx, Personas.setPayload])
